import Mathlib

/-!
Formal model of `read_waveplus.py` from the waveplus-reader repository.

The Python program discovers an Airthings Wave Plus device by serial number,
connects over BLE, reads a raw characteristic buffer, decodes it into sensor
values and repeats on a timer.  This file gives a shallow embedding of the
program: pure helpers become Lean functions, the mutable `WavePlus` and
`Sensors` objects become explicit state records, Python exceptions become
explicit error values, and the BLE transport collaborator becomes a record of
response functions.  Line numbers in doc comments refer to `read_waveplus.py`.
-/

namespace WavePlusReader

/-- Python exceptions that the modelled helper code can raise. -/
inductive PyErr where
  | indexError
  | valueError
  deriving DecidableEq

/-- Result of `parseSerialNumber`: the string "Unknown" or an integer serial. -/
inductive SNValue where
  | unknown
  | serial (n : Nat)
  deriving DecidableEq

/-- Python sequence indexing `xs[i]` for a non-negative index: raises
`IndexError` when the index is out of range. -/
def pyIdx : List Nat → Nat → Except PyErr Nat
  | [], _ => .error .indexError
  | b :: _, 0 => .ok b
  | _ :: bs, i + 1 => pyIdx bs i

/-- Lines 46-53 of `parseSerialNumber`, operating on the decoded byte array
`ManuData`: compare the little-endian 16-bit manufacturer ID against 0x0334
and, on a match, assemble the serial from bytes 2-5 with the same shift/or
chain as the source. -/
def parseSNData (manuData : List Nat) : Except PyErr SNValue := do
  let b0 ← pyIdx manuData 0
  let b1 ← pyIdx manuData 1
  if (b1 <<< 8) ||| b0 = 0x0334 then
    let b2 ← pyIdx manuData 2
    let b3 ← pyIdx manuData 3
    let b4 ← pyIdx manuData 4
    let b5 ← pyIdx manuData 5
    pure (.serial (((b2 ||| (b3 <<< 8)) ||| (b4 <<< 16)) ||| (b5 <<< 24)))
  else
    pure .unknown

/-- Value of one hexadecimal digit, `none` for a non-hex character. -/
def hexDigitVal (c : Char) : Option Nat :=
  if '0' ≤ c ∧ c ≤ '9' then some (c.toNat - '0'.toNat)
  else if 'a' ≤ c ∧ c ≤ 'f' then some (c.toNat - 'a'.toNat + 10)
  else if 'A' ≤ c ∧ c ≤ 'F' then some (c.toNat - 'A'.toNat + 10)
  else none

/-- Model of `bytearray.fromhex`: each pair of hex digits becomes one byte;
`none` models the `ValueError` raised on odd length or a non-hex character.
(Python also allows ASCII spaces between bytes; the advertisement hex strings
fed to the parser never contain spaces, so that case is not modelled.) -/
def fromhex : List Char → Option (List Nat)
  | [] => some []
  | [_] => none
  | c1 :: c2 :: rest => do
    let hi ← hexDigitVal c1
    let lo ← hexDigitVal c2
    let bs ← fromhex rest
    pure ((hi * 16 + lo) :: bs)

/-- Function `parseSerialNumber` (lines 40-53): takes the manufacturer-data
hex string, with `none` modelling Python `None`, and returns "Unknown" or the
decoded serial number; an exception escaping the function is `.error`. -/
def parseSerialNumber : Option String → Except PyErr SNValue
  | none => .ok .unknown
  | some s =>
    if s = "None" then .ok .unknown
    else
      match fromhex s.data with
      | none => .error .valueError
      | some manuData => parseSNData manuData

/-- A sensor slot value: a Python float (modelled as a rational), a Python int
(radon values are stored unconverted) or the string "N/A". -/
inductive SensorValue where
  | flt (q : ℚ)
  | int (n : Nat)
  | na
  deriving DecidableEq

/-- Method `Sensors.conv2radon` (lines 158-162): raw radon counts above 16383
mean an invalid or not yet available measurement.  The raw value comes from an
unsigned 16-bit unpack, so the source's `0 <= radon_raw` test is always true
and the argument is a `Nat` here. -/
def conv2radon (radon_raw : Nat) : SensorValue :=
  if radon_raw ≤ 16383 then .int radon_raw else .na

/-- Result of `struct.unpack('<BBBBHHHHHHHH', rawdata)` (line 108): four
single bytes followed by eight little-endian 16-bit words, with the flat tuple
indices 0-11 used by the source. -/
structure RawData where
  rd0 : Nat
  rd1 : Nat
  rd2 : Nat
  rd3 : Nat
  rd4 : Nat
  rd5 : Nat
  rd6 : Nat
  rd7 : Nat
  rd8 : Nat
  rd9 : Nat
  rd10 : Nat
  rd11 : Nat
  deriving DecidableEq

/-- The little-endian 16-bit word at byte offset `i` (format character 'H'). -/
def leWord (bytes : List Nat) (i : Nat) : Nat :=
  bytes.getD i 0 + 256 * bytes.getD (i + 1) 0

/-- `struct.unpack('<BBBBHHHHHHHH', bytes)`: the format spans exactly 20
bytes; `none` models the `struct.error` raised for any other buffer length. -/
def unpackFrame (bytes : List Nat) : Option RawData :=
  if bytes.length = 20 then
    some { rd0 := bytes.getD 0 0, rd1 := bytes.getD 1 0,
           rd2 := bytes.getD 2 0, rd3 := bytes.getD 3 0,
           rd4 := leWord bytes 4, rd5 := leWord bytes 6,
           rd6 := leWord bytes 8, rd7 := leWord bytes 10,
           rd8 := leWord bytes 12, rd9 := leWord bytes 14,
           rd10 := leWord bytes 16, rd11 := leWord bytes 18 }
  else none

/-- The unit-string table of `Sensors.__init__` (line 135). -/
def unitTable : List String := ["%rH", "Bq/m3", "Bq/m3", "degC", "hPa", "ppm", "ppb"]

/-- The `Sensors` object: version byte, sensor count, per-sensor data slots
(`none` models a slot still holding Python `None`, i.e. unpopulated) and the
unit strings. -/
structure Sensors where
  sensor_version : Option Nat
  numberOfSensors : Nat
  sensor_data : List (Option SensorValue)
  sensor_units : List String
  deriving DecidableEq

/-- `Sensors.__init__` (lines 131-135). -/
def Sensors.init (numberOfSensors : Nat) : Sensors :=
  { sensor_version := none,
    numberOfSensors := numberOfSensors,
    sensor_data := List.replicate numberOfSensors none,
    sensor_units := unitTable.take numberOfSensors }

/-- The `processor` dictionary of `Sensors.set` (lines 140-148) as a lookup
function; `none` models the `KeyError` a key outside 0-6 would raise (never
reached, since the sensor count is 4 or 7). -/
def processor (rawData : RawData) : Nat → Option SensorValue
  | 0 => some (.flt ((rawData.rd1 : ℚ) / 2))
  | 1 => some (conv2radon rawData.rd4)
  | 2 => some (conv2radon rawData.rd5)
  | 3 => some (.flt ((rawData.rd6 : ℚ) / 100))
  | 4 => some (.flt ((rawData.rd7 : ℚ) / 50))
  | 5 => some (.flt ((rawData.rd8 : ℚ) * 1))
  | 6 => some (.flt ((rawData.rd9 : ℚ) * 1))
  | _ => none

/-- The assignment loop of `Sensors.set` (lines 150-151): slot `sensor` is
overwritten with `processor[sensor]` for `sensor` in `range(numberOfSensors)`. -/
def setLoop (rawData : RawData) (n : Nat) (l : List (Option SensorValue)) :
    List (Option SensorValue) :=
  (List.range n).foldl (fun acc i => acc.set i (processor rawData i)) l

/-- Errors of the program.  The first three are issued with `sys.exit(1)`
(`SystemExit`, which `except Exception` does not catch); the remaining ones
are ordinary Python exceptions. -/
inductive WpError where
  | deviceNotFound
  | notConnected
  | unsupportedVersion
  | connectionFailed
  | pyRaise (e : PyErr)
  | structError
  deriving DecidableEq

/-- Whether an error is issued via `sys.exit(1)`: `deviceNotFound` (lines
86-91), `notConnected` (lines 104-106) and `unsupportedVersion` (lines
153-156) end the process; the rest are catchable exceptions. -/
def WpError.isFatal : WpError → Bool
  | .deviceNotFound => true
  | .notConnected => true
  | .unsupportedVersion => true
  | _ => false

/-- Method `Sensors.set` (lines 137-156): record the version byte; when it is
1, populate every slot up to `numberOfSensors` from the processor table;
otherwise print the unknown-version error and exit, leaving the slots
untouched.  The pair carries the object as mutated so far plus the error, if
one was raised. -/
def Sensors.set (s : Sensors) (rawData : RawData) : Sensors × Option WpError :=
  let s1 := { s with sensor_version := some rawData.rd0 }
  if rawData.rd0 = 1 then
    ({ s1 with sensor_data := setLoop rawData s1.numberOfSensors s1.sensor_data }, none)
  else
    (s1, some .unsupportedVersion)

/-- Decoding one raw characteristic buffer at a given sensor count, as
`WavePlus.read` does (lines 107-110): unpack, build a fresh `Sensors`, `set`. -/
def decodeFrame (n : Nat) (bytes : List Nat) : Option (Sensors × Option WpError) :=
  (unpackFrame bytes).map (Sensors.init n).set

/-- The 32-bit unsigned integer encoded little-endian at bytes 2-5 of a
payload — the spec's description of the serial-number field. -/
def le32at2 (bs : List Nat) : Nat :=
  bs.getD 2 0 + 256 * bs.getD 3 0 + 65536 * bs.getD 4 0 + 16777216 * bs.getD 5 0

theorem lor_shiftLeft_eq_add (x y k : Nat) (h : x < 2 ^ k) :
    x ||| (y <<< k) = x + y * 2 ^ k := by
  have h2 : 2 ^ k * y + x = 2 ^ k * y ||| x := Nat.mul_add_lt_is_or h y
  rw [Nat.lor_comm, Nat.shiftLeft_eq, Nat.mul_comm y (2 ^ k), ← h2]
  omega

theorem lor_shl8 (x y : Nat) (h : x < 256) : x ||| (y <<< 8) = x + 256 * y := by
  have := lor_shiftLeft_eq_add x y 8 (by norm_num; omega)
  rw [this]; norm_num; omega

theorem lor_shl16 (x y : Nat) (h : x < 65536) : x ||| (y <<< 16) = x + 65536 * y := by
  have := lor_shiftLeft_eq_add x y 16 (by norm_num; omega)
  rw [this]; norm_num; omega

theorem lor_shl24 (x y : Nat) (h : x < 16777216) : x ||| (y <<< 24) = x + 16777216 * y := by
  have := lor_shiftLeft_eq_add x y 24 (by norm_num; omega)
  rw [this]; norm_num; omega

/-- Claim C3: `conv2radon` returns every raw value in [0, 16383] unchanged and
returns the "N/A" sentinel for every raw 16-bit value in [16384, 65535]. -/
theorem claim_C3 (raw : Nat) :
    (raw ≤ 16383 → conv2radon raw = .int raw) ∧
    (16384 ≤ raw → raw ≤ 65535 → conv2radon raw = .na) := by
  constructor
  · intro h
    unfold conv2radon
    rw [if_pos h]
  · intro h _
    unfold conv2radon
    rw [if_neg (by omega)]

theorem claim_C3_witness :
    conv2radon 16383 = .int 16383 ∧ conv2radon 16384 = .na :=
  ⟨(claim_C3 16383).1 (by omega), (claim_C3 16384).2 (by omega) (by omega)⟩

/-- Claim C4: for a payload of at least 6 bytes whose first two bytes read as
a little-endian 16-bit integer equal 0x0334, `parseSerialNumber` returns the
32-bit unsigned integer encoded little-endian at bytes 2-5; for absent input
or a payload whose manufacturer-ID field differs from 0x0334 it returns
Unknown.  `parseSNData` is the parser after the hex-string decode, i.e. the
function applied to the payload bytes. -/
theorem claim_C4 (bs : List Nat) (hlen : 6 ≤ bs.length) (hby : ∀ b ∈ bs, b < 256) :
    (bs.getD 0 0 + 256 * bs.getD 1 0 = 0x0334 →
      parseSNData bs = .ok (.serial (le32at2 bs))) ∧
    (bs.getD 0 0 + 256 * bs.getD 1 0 ≠ 0x0334 →
      parseSNData bs = .ok .unknown) ∧
    parseSerialNumber none = .ok .unknown := by
  rcases bs with _ | ⟨b0, _ | ⟨b1, _ | ⟨b2, _ | ⟨b3, _ | ⟨b4, _ | ⟨b5, rest⟩⟩⟩⟩⟩⟩ <;>
    simp only [List.length_nil, List.length_cons] at hlen <;> try omega
  have h0 : b0 < 256 := hby b0 (by simp)
  have h2 : b2 < 256 := hby b2 (by simp)
  have h3 : b3 < 256 := hby b3 (by simp)
  have h4 : b4 < 256 := hby b4 (by simp)
  have hrun : parseSNData (b0 :: b1 :: b2 :: b3 :: b4 :: b5 :: rest)
      = if (b1 <<< 8) ||| b0 = 0x0334
        then .ok (.serial (((b2 ||| (b3 <<< 8)) ||| (b4 <<< 16)) ||| (b5 <<< 24)))
        else .ok .unknown := rfl
  have hid : (b1 <<< 8) ||| b0 = b0 + 256 * b1 := by
    rw [Nat.lor_comm, lor_shl8 b0 b1 h0]
  have hser : ((b2 ||| (b3 <<< 8)) ||| (b4 <<< 16)) ||| (b5 <<< 24)
      = b2 + 256 * b3 + 65536 * b4 + 16777216 * b5 := by
    rw [lor_shl8 b2 b3 h2, lor_shl16 _ b4 (by omega), lor_shl24 _ b5 (by omega)]
  refine ⟨fun hm => ?_, fun hm => ?_, rfl⟩
  · rw [hrun, hid, if_pos ?_]
    · show _ = Except.ok (SNValue.serial (le32at2 (b0 :: b1 :: b2 :: b3 :: b4 :: b5 :: rest)))
      rw [hser]
      rfl
    · simpa using hm
  · rw [hrun, hid, if_neg ?_]
    simpa using hm

theorem claim_C4_witness :
    parseSNData [0x34, 0x03, 0x78, 0x56, 0x34, 0x12] = .ok (.serial 0x12345678) := by
  have h := (claim_C4 [0x34, 0x03, 0x78, 0x56, 0x34, 0x12] (by simp) (by decide)).1 (by norm_num)
  rw [h]
  norm_num [le32at2]

/-- Claim C5 (code bug): contrary to the spec's robustness requirement, a
malformed short payload makes `parseSerialNumber` raise instead of returning
Unknown: a 0-byte payload (hex string "") raises IndexError at `ManuData[1]`,
as does a 2-byte payload carrying a matching manufacturer ID at `ManuData[2]`. -/
theorem claim_C5_code_bug :
    parseSerialNumber (some "") = .error .indexError ∧
    parseSNData [0x34, 0x03] = .error .indexError := ⟨rfl, rfl⟩

/-- Claim C10: `parseSerialNumber` treats the literal text string "None"
exactly like absent input, returning Unknown without attempting a hex decode. -/
theorem claim_C10 :
    parseSerialNumber (some "None") = .ok .unknown ∧
    parseSerialNumber none = .ok .unknown := ⟨rfl, rfl⟩

/-- The concrete frame of the spec's round-trip scenario: version byte 1,
three reserved zero bytes, then the eight words 0x0064, 0x0000, 0x0000,
0x0032, 0x0190, 0x03E8, 0x0190, 0x0096 laid out little-endian. -/
def exampleFrame : List Nat :=
  [0x01, 0x00, 0x00, 0x00,
   0x64, 0x00, 0x00, 0x00, 0x00, 0x00, 0x32, 0x00,
   0x90, 0x01, 0xE8, 0x03, 0x90, 0x01, 0x96, 0x00]

/-- Claim C1 counterexample: the decoder maps the humidity slot to frame byte
1 and the radon/temperature/pressure/CO2/VOC slots to words 0-5, not to the
word indices the claim lists, so the spec's round-trip frame decodes to
0.0 %rH, 100 Bq/m3, 0 Bq/m3, 0.0 degC, 1.0 hPa, 400 ppm, 1000 ppb — not to
the claimed 50.0 %rH, 50 Bq/m3, 0 Bq/m3, 4.00 degC, 20.0 hPa, 400 ppm,
150 ppb. -/
theorem claim_C1_counterexample :
    decodeFrame 7 exampleFrame =
      some ({ sensor_version := some 1, numberOfSensors := 7,
              sensor_data := [some (.flt 0), some (.int 100), some (.int 0),
                              some (.flt 0), some (.flt 1), some (.flt 400), some (.flt 1000)],
              sensor_units := unitTable }, none) ∧
    decodeFrame 7 exampleFrame ≠
      some ({ sensor_version := some 1, numberOfSensors := 7,
              sensor_data := [some (.flt 50), some (.int 50), some (.int 0),
                              some (.flt 4), some (.flt 20), some (.flt 400), some (.flt 150)],
              sensor_units := unitTable }, none) := by
  constructor
  · simp [decodeFrame, exampleFrame, unpackFrame, leWord, Sensors.init, Sensors.set, setLoop,
          List.range_succ, processor, conv2radon, unitTable]
  · simp [decodeFrame, exampleFrame, unpackFrame, leWord, Sensors.init, Sensors.set, setLoop,
          List.range_succ, processor, conv2radon, unitTable]

/-- Claim C1 amended: the raw frame spans 20 bytes (4 leading bytes plus 8
little-endian words); for every such frame with version byte 1, the decoder
populates, for the 7-sensor capability: Humidity = byte1 / 2.0,
RadonShortTermAvg = radonSentinel(word0), RadonLongTermAvg =
radonSentinel(word1), Temperature = word2 / 100.0, RelAtmPressure =
word3 / 50.0, Co2Level = word4, VocLevel = word5, where word i sits at byte
offset 4 + 2i. -/
theorem claim_C1_amended (bytes : List Nat) (hlen : bytes.length = 20)
    (hv : bytes[0]? = some 1) :
    decodeFrame 7 bytes = some
      ({ sensor_version := some 1, numberOfSensors := 7,
         sensor_data :=
           [some (.flt ((bytes.getD 1 0 : ℚ) / 2)),
            some (conv2radon (leWord bytes 4)),
            some (conv2radon (leWord bytes 6)),
            some (.flt ((leWord bytes 8 : ℚ) / 100)),
            some (.flt ((leWord bytes 10 : ℚ) / 50)),
            some (.flt ((leWord bytes 12 : ℚ) * 1)),
            some (.flt ((leWord bytes 14 : ℚ) * 1))],
         sensor_units := unitTable }, none) := by
  simp [decodeFrame, unpackFrame, hlen, Sensors.set, hv, Sensors.init, setLoop,
        List.range_succ, processor, unitTable]

theorem claim_C1_amended_witness :
    exampleFrame.length = 20 ∧
    decodeFrame 7 exampleFrame = some
      ({ sensor_version := some 1, numberOfSensors := 7,
         sensor_data :=
           [some (.flt ((exampleFrame.getD 1 0 : ℚ) / 2)),
            some (conv2radon (leWord exampleFrame 4)),
            some (conv2radon (leWord exampleFrame 6)),
            some (.flt ((leWord exampleFrame 8 : ℚ) / 100)),
            some (.flt ((leWord exampleFrame 10 : ℚ) / 50)),
            some (.flt ((leWord exampleFrame 12 : ℚ) * 1)),
            some (.flt ((leWord exampleFrame 14 : ℚ) * 1))],
         sensor_units := unitTable }, none) :=
  ⟨rfl, claim_C1_amended exampleFrame rfl rfl⟩

/-- Claim C2: any 20-byte raw frame whose first byte differs from 1 makes the
decoder fail with the unsupported-version error, regardless of the remaining
frame content, and every sensor slot stays unpopulated. -/
theorem claim_C2 (bytes : List Nat) (n : Nat) (hlen : bytes.length = 20)
    (hv : bytes[0]? ≠ some 1) :
    decodeFrame n bytes =
      some ({ sensor_version := some (bytes.getD 0 0), numberOfSensors := n,
              sensor_data := List.replicate n none,
              sensor_units := unitTable.take n }, some .unsupportedVersion) := by
  obtain ⟨b0, hb0⟩ : ∃ b, bytes[0]? = some b := by
    rw [List.getElem?_eq_getElem (by omega)]
    exact ⟨_, rfl⟩
  have hne : b0 ≠ 1 := by
    intro h
    exact hv (h ▸ hb0)
  simp [decodeFrame, unpackFrame, hlen, Sensors.set, hb0, hne, Sensors.init]

theorem claim_C2_witness :
    decodeFrame 4 (2 :: List.replicate 19 0) =
      some ({ sensor_version := some 2, numberOfSensors := 4,
              sensor_data := List.replicate 4 none,
              sensor_units := unitTable.take 4 }, some .unsupportedVersion) := by
  have h := claim_C2 (2 :: List.replicate 19 0) 4 (by simp) (by simp)
  simpa using h

/-- A BLE peripheral discovered during a scan burst: its address and the hex
string returned by `dev.getValueText(255)` (`none` when the advertisement
carries no manufacturer-specific data). -/
structure Device where
  addr : String
  manuData : Option String
  deriving DecidableEq

/-- Model of the BLE transport collaborator: the devices each 0.1 s scan
burst discovers, whether `Peripheral(addr)` succeeds, whether
`getCharacteristics(uuid=...)` on a connected peripheral returns a non-empty
list, and the bytes one characteristic read yields. -/
structure Transport where
  scan : Nat → List Device
  connectOk : String → Bool
  charOk : String → String → Bool
  readBytes : List Nat

/-- The mutable fields of a `WavePlus` object (lines 60-66).  `periph` holds
the address the peripheral was opened on (`none` models Python `None`);
`curr_val_char` records the uuid the characteristic handle was resolved for. -/
structure WavePlusState where
  periph : Option String
  curr_val_char : Option String
  MacAddr : Option String
  SN : Nat
  uuid : String
  numSensors : Nat
  deriving DecidableEq

/-- `WavePlus.__init__` (lines 60-66). -/
def WavePlus.mkState (SerialNumber : Nat) (hasAirQuality : Bool) : WavePlusState :=
  { periph := none, curr_val_char := none, MacAddr := none, SN := SerialNumber,
    uuid := if hasAirQuality then "b42e2a68-ade7-11e4-89d3-123b93f75cba"
            else "b42e4dcc-ade7-11e4-89d3-123b93f75cba",
    numSensors := if hasAirQuality then 7 else 4 }

/-- The `for dev in devices` body of the discovery loop (lines 79-84): the
address of the first device whose parsed serial equals the target; an
exception raised by `parseSerialNumber` propagates. -/
def burstFind (target : Nat) : List Device → Except PyErr (Option String)
  | [] => .ok none
  | d :: ds =>
    match parseSerialNumber d.manuData with
    | .error e => .error e
    | .ok v => if v = .serial target then .ok (some d.addr) else burstFind target ds

/-- The discovery `while` loop (lines 76-84) with `remaining` further bursts
allowed and `i` the index of the next burst. -/
def discoverFrom (scan : Nat → List Device) (target : Nat) :
    Nat → Nat → Except PyErr (Option String)
  | 0, _ => .ok none
  | remaining + 1, i =>
    match burstFind target (scan i) with
    | .error e => .error e
    | .ok (some a) => .ok (some a)
    | .ok none => discoverFrom scan target remaining (i + 1)

/-- Auto-discovery on first connection (lines 73-84): at most 50 bursts,
searchCount running 0 to 49. -/
def discover (scan : Nat → List Device) (target : Nat) : Except PyErr (Option String) :=
  discoverFrom scan target 50 0

/-- Lines 98-99: resolve the current-values characteristic when no handle is
held yet; an empty characteristic list raises inside the `try`, surfacing as
the generic connect failure. -/
def resolveChar (t : Transport) (s : WavePlusState) : WavePlusState × Option WpError :=
  match s.curr_val_char with
  | some _ => (s, none)
  | none =>
    match s.periph with
    | none => (s, some .connectionFailed)
    | some a =>
      if t.charOk a s.uuid then ({ s with curr_val_char := some s.uuid }, none)
      else (s, some .connectionFailed)

/-- Lines 93-101: the `try` block opening the peripheral (skipped when one is
already held) and resolving the characteristic; any failure inside is
re-raised as the generic "Failed to connect" exception.  Note that a
successfully opened peripheral stays recorded even when the characteristic
resolution then fails. -/
def connectPhase (t : Transport) (s : WavePlusState) : WavePlusState × Option WpError :=
  match s.MacAddr with
  | none => (s, none)
  | some a =>
    match s.periph with
    | none =>
      if t.connectOk a then resolveChar t { s with periph := some a }
      else (s, some .connectionFailed)
    | some _ => resolveChar t s

/-- `WavePlus.connect` (lines 71-101): discover the device by serial number
when no address is cached yet, exiting with the could-not-find-device error
when 50 bursts produce no match, then open the connection and resolve the
characteristic.  The pair carries the object as mutated so far plus the error
raised, if any. -/
def WavePlus.connect (t : Transport) (s : WavePlusState) : WavePlusState × Option WpError :=
  match s.MacAddr with
  | some _ => connectPhase t s
  | none =>
    match discover t.scan s.SN with
    | .error e => (s, some (.pyRaise e))
    | .ok none => (s, some .deviceNotFound)
    | .ok (some a) => connectPhase t { s with MacAddr := some a }

/-- `WavePlus.read` (lines 103-111): exit when no characteristic handle is
held, otherwise read the raw buffer, unpack it and decode it into a fresh
`Sensors` object.  The `WavePlus` fields themselves are not mutated. -/
def WavePlus.read (t : Transport) (s : WavePlusState) : Except WpError Sensors :=
  match s.curr_val_char with
  | none => .error .notConnected
  | some _ =>
    match unpackFrame t.readBytes with
    | none => .error .structError
    | some rawData =>
      match (Sensors.init s.numSensors).set rawData with
      | (_, some e) => .error e
      | (sens, none) => .ok sens

/-- `WavePlus.disconnect` (lines 113-117): close and clear the peripheral and
the characteristic handle when a peripheral is held, otherwise do nothing. -/
def WavePlus.disconnect (s : WavePlusState) : WavePlusState :=
  match s.periph with
  | some _ => { s with periph := none, curr_val_char := none }
  | none => s

/-- One iteration of the `while True` body (lines 210-234): connect, read,
format and print, disconnect.  Returns the state after the iteration, the
reading produced, and the error that aborted the iteration, if any. -/
def pollCycle (t : Transport) (s : WavePlusState) :
    WavePlusState × Option Sensors × Option WpError :=
  match WavePlus.connect t s with
  | (s1, some e) => (s1, none, some e)
  | (s1, none) =>
    match WavePlus.read t s1 with
    | .error e => (s1, none, some e)
    | .ok sens => (WavePlus.disconnect s1, some sens, none)

/-- The `while True` loop observed for at most `fuel` iterations: the
readings printed so far, the state, and the first error if one occurred —
which ends the loop, since the `try` of lines 193-236 wraps the whole loop. -/
def pollLoopAux (t : Transport) :
    Nat → WavePlusState → List Sensors → List Sensors × WavePlusState × Option WpError
  | 0, s, acc => (acc.reverse, s, none)
  | fuel + 1, s, acc =>
    match pollCycle t s with
    | (s1, _, some e) => (acc.reverse, s1, some e)
    | (s1, some sens, none) => pollLoopAux t fuel s1 (sens :: acc)
    | (s1, none, none) => pollLoopAux t fuel s1 acc

/-- The main loop with its `try / except Exception / finally` (lines
193-241): when an error ends the loop — whether a catchable exception or a
`sys.exit` — the `finally` clause runs `disconnect` before the process
exits.  With the fuel exhausted and no error the loop is still running. -/
def pollRun (t : Transport) (fuel : Nat) (s : WavePlusState) :
    List Sensors × WavePlusState × Option WpError :=
  match pollLoopAux t fuel s [] with
  | (rs, s1, some e) => (rs, WavePlus.disconnect s1, some e)
  | (rs, s1, none) => (rs, s1, none)

/-- Invariant of reachable session states: a characteristic handle is only
held while a peripheral connection is held. -/
def SessionInv (s : WavePlusState) : Prop := s.periph = none → s.curr_val_char = none

theorem disconnect_clears : ∀ s, SessionInv s →
    (WavePlus.disconnect s).periph = none ∧ (WavePlus.disconnect s).curr_val_char = none
  | ⟨none, _, _, _, _, _⟩, h => ⟨rfl, h rfl⟩
  | ⟨some _, _, _, _, _, _⟩, _ => ⟨rfl, rfl⟩

theorem disconnect_idem : ∀ s, WavePlus.disconnect (WavePlus.disconnect s) = WavePlus.disconnect s
  | ⟨none, _, _, _, _, _⟩ => rfl
  | ⟨some _, _, _, _, _, _⟩ => rfl

theorem sessionInv_disconnect : ∀ s, SessionInv s → SessionInv (WavePlus.disconnect s)
  | ⟨none, _, _, _, _, _⟩, h => h
  | ⟨some _, _, _, _, _, _⟩, _ => fun _ => rfl

theorem sessionInv_resolveChar (t : Transport) :
    ∀ s, SessionInv s → SessionInv (resolveChar t s).1
  | ⟨p, some c, m, sn, u, ns⟩, h => h
  | ⟨none, none, m, sn, u, ns⟩, h => h
  | ⟨some a, none, m, sn, u, ns⟩, h => by
      unfold resolveChar
      dsimp only
      by_cases hok : t.charOk a u
      · rw [if_pos hok]
        intro h2
        exact Option.noConfusion h2
      · rw [if_neg hok]
        exact h

theorem sessionInv_connectPhase (t : Transport) :
    ∀ s, SessionInv s → SessionInv (connectPhase t s).1
  | ⟨p, c, none, sn, u, ns⟩, h => h
  | ⟨some b, c, some m, sn, u, ns⟩, h => sessionInv_resolveChar t _ h
  | ⟨none, c, some m, sn, u, ns⟩, h => by
      unfold connectPhase
      dsimp only
      by_cases hok : t.connectOk m
      · rw [if_pos hok]
        exact sessionInv_resolveChar t _ (fun h2 => Option.noConfusion h2)
      · rw [if_neg hok]
        exact h

theorem sessionInv_connect (t : Transport) (s : WavePlusState) (h : SessionInv s) :
    SessionInv (WavePlus.connect t s).1 := by
  unfold WavePlus.connect
  rcases hm : s.MacAddr with _ | m
  · rcases hd : discover t.scan s.SN with e | oa
    · exact h
    · rcases oa with _ | a
      · exact h
      · exact sessionInv_connectPhase t _ h
  · exact sessionInv_connectPhase t _ h

theorem sessionInv_pollCycle (t : Transport) (s : WavePlusState) (h : SessionInv s) :
    SessionInv (pollCycle t s).1 := by
  unfold pollCycle
  rcases hc : WavePlus.connect t s with ⟨s1, _ | e⟩
  · have h1 : SessionInv s1 := by
      have := sessionInv_connect t s h
      rw [hc] at this
      exact this
    dsimp only
    rcases hr : WavePlus.read t s1 with e | sens
    · exact h1
    · exact sessionInv_disconnect _ h1
  · have h1 : SessionInv s1 := by
      have := sessionInv_connect t s h
      rw [hc] at this
      exact this
    exact h1

/-- Claim C8: from any reachable session state, `disconnect` always succeeds
(it is a total function: the source never re-raises around the transport's
own close call, which is modelled as infallible), after it returns both the
transport connection and the characteristic handle are cleared, and calling
it twice has the same effect as calling it once. -/
theorem claim_C8 (s : WavePlusState) (hinv : SessionInv s) :
    (WavePlus.disconnect s).periph = none ∧
    (WavePlus.disconnect s).curr_val_char = none ∧
    WavePlus.disconnect (WavePlus.disconnect s) = WavePlus.disconnect s :=
  ⟨(disconnect_clears s hinv).1, (disconnect_clears s hinv).2, disconnect_idem s⟩

/-- A session state holding a live connection and characteristic handle. -/
def connectedState : WavePlusState :=
  { periph := some "aa", curr_val_char := some "u", MacAddr := some "aa",
    SN := 1, uuid := "u", numSensors := 7 }

theorem claim_C8_witness :
    (WavePlus.disconnect connectedState).periph = none ∧
    (WavePlus.disconnect connectedState).curr_val_char = none ∧
    WavePlus.disconnect (WavePlus.disconnect connectedState) = WavePlus.disconnect connectedState :=
  claim_C8 connectedState (fun h => Option.noConfusion h)

/-- A transport whose scans find nothing and whose connection attempts fail. -/
def cfTransport : Transport :=
  { scan := fun _ => [], connectOk := fun _ => false, charOk := fun _ _ => false,
    readBytes := [] }

/-- A session state with the device address already discovered and cached but
no connection open. -/
def cachedState : WavePlusState :=
  { periph := none, curr_val_char := none, MacAddr := some "aa",
    SN := 1, uuid := "u", numSensors := 4 }

/-- Claim C7 counterexample: with the address cached and the transport
refusing connections, the first poll cycle raises the recoverable
ConnectionFailed — and the loop terminates with it (the `try` wraps the whole
`while`), producing no readings even though more fuel remained; it is not
absorbed, contradicting the claim that only fatal errors terminate the loop. -/
theorem claim_C7_counterexample :
    pollRun cfTransport 2 cachedState = ([], cachedState, some .connectionFailed) ∧
    WpError.isFatal .connectionFailed = false := ⟨rfl, rfl⟩

/-- Claim C7 amended: any error raised during a poll cycle — the recoverable
ConnectionFailed included — terminates the loop at that cycle rather than
being absorbed; the `finally` clause then guarantees disconnect cleanup
(connection and characteristic handle cleared) on every exit path, and the
cached address is still held after cleanup. -/
theorem claim_C7_amended (t : Transport) (s : WavePlusState) (e : WpError) (fuel : Nat)
    (hinv : SessionInv s) (hfuel : 1 ≤ fuel)
    (hcycle : (pollCycle t s).2.2 = some e) :
    pollRun t fuel s = ([], WavePlus.disconnect (pollCycle t s).1, some e) ∧
    (pollRun t fuel s).2.1.periph = none ∧
    (pollRun t fuel s).2.1.curr_val_char = none ∧
    (pollRun t fuel s).2.1.MacAddr = (pollCycle t s).1.MacAddr := by
  obtain ⟨k, rfl⟩ : ∃ k, fuel = k + 1 := ⟨fuel - 1, by omega⟩
  have hrun : pollRun t (k + 1) s = ([], WavePlus.disconnect (pollCycle t s).1, some e) := by
    unfold pollRun pollLoopAux
    rcases hpc : pollCycle t s with ⟨s1, osens, oerr⟩
    have : oerr = some e := by
      rw [hpc] at hcycle
      exact hcycle
    subst this
    rcases osens with _ | sens <;> rfl
  have hinv1 : SessionInv (pollCycle t s).1 := sessionInv_pollCycle t s hinv
  have hclr := disconnect_clears _ hinv1
  refine ⟨hrun, ?_, ?_, ?_⟩
  · rw [hrun]; exact hclr.1
  · rw [hrun]; exact hclr.2
  · rw [hrun]
    show (WavePlus.disconnect (pollCycle t s).1).MacAddr = _
    rcases hp : ((pollCycle t s).1).periph with _ | a
    · unfold WavePlus.disconnect
      rw [hp]
    · unfold WavePlus.disconnect
      rw [hp]

theorem claim_C7_amended_witness :
    pollRun cfTransport 2 cachedState
        = ([], WavePlus.disconnect (pollCycle cfTransport cachedState).1, some .connectionFailed) ∧
    (pollRun cfTransport 2 cachedState).2.1.periph = none ∧
    (pollRun cfTransport 2 cachedState).2.1.curr_val_char = none ∧
    (pollRun cfTransport 2 cachedState).2.1.MacAddr
        = (pollCycle cfTransport cachedState).1.MacAddr :=
  claim_C7_amended cfTransport cachedState .connectionFailed 2
    (fun _ => rfl) (by omega) rfl

theorem burstFind_some {target : Nat} : ∀ {ds : List Device} {a : String},
    burstFind target ds = .ok (some a) →
    ∃ d ∈ ds, d.addr = a ∧ parseSerialNumber d.manuData = .ok (.serial target)
  | [], a, h => by cases h
  | d :: ds, a, h => by
      unfold burstFind at h
      split at h
      · cases h
      · rename_i v hp
        split at h
        · rename_i hv
          obtain rfl : d.addr = a := by cases h; rfl
          exact ⟨d, by simp, rfl, by rw [hp, hv]⟩
        · obtain ⟨d2, hd2, ha, hp2⟩ := burstFind_some h
          exact ⟨d2, by simp [hd2], ha, hp2⟩

theorem discoverFrom_congr (scan scan2 : Nat → List Device) (target : Nat) :
    ∀ (rem i : Nat), (∀ j, i ≤ j → j < i + rem → scan2 j = scan j) →
      discoverFrom scan2 target rem i = discoverFrom scan target rem i := by
  intro rem
  induction rem with
  | zero => intro i _; rfl
  | succ k ih =>
      intro i hagree
      unfold discoverFrom
      rw [hagree i (le_refl i) (by omega)]
      rcases hb : burstFind target (scan i) with e | oa
      · rfl
      · rcases oa with _ | a
        · exact ih (i + 1) (fun j h1 h2 => hagree j (by omega) (by omega))
        · rfl

theorem discoverFrom_some (scan : Nat → List Device) (target : Nat) :
    ∀ (rem i : Nat) (a : String), discoverFrom scan target rem i = .ok (some a) →
      ∃ j, i ≤ j ∧ j < i + rem ∧ burstFind target (scan j) = .ok (some a) := by
  intro rem
  induction rem with
  | zero =>
      intro i a h
      cases h
  | succ k ih =>
      intro i a h
      unfold discoverFrom at h
      rcases hb : burstFind target (scan i) with e | oa <;> rw [hb] at h
      · cases h
      · rcases oa with _ | b
        · obtain ⟨j, h1, h2, h3⟩ := ih (i + 1) a h
          exact ⟨j, by omega, by omega, h3⟩
        · obtain rfl : b = a := by cases h; rfl
          exact ⟨i, le_refl i, by omega, hb⟩

theorem discoverFrom_none (scan : Nat → List Device) (target : Nat) :
    ∀ (rem i : Nat), (∀ j, i ≤ j → j < i + rem → burstFind target (scan j) = .ok none) →
      discoverFrom scan target rem i = .ok none := by
  intro rem
  induction rem with
  | zero => intro i _; rfl
  | succ k ih =>
      intro i hall
      unfold discoverFrom
      rw [hall i (le_refl i) (by omega)]
      exact ih (i + 1) (fun j h1 h2 => hall j (by omega) (by omega))

theorem resolveChar_MacAddr (t : Transport) :
    ∀ s, (resolveChar t s).1.MacAddr = s.MacAddr
  | ⟨p, some c, m, sn, u, ns⟩ => rfl
  | ⟨none, none, m, sn, u, ns⟩ => rfl
  | ⟨some a, none, m, sn, u, ns⟩ => by
      unfold resolveChar
      dsimp only
      by_cases hok : t.charOk a u
      · rw [if_pos hok]
      · rw [if_neg hok]

theorem resolveChar_err (t : Transport) :
    ∀ s, (resolveChar t s).2 ≠ some WpError.deviceNotFound
  | ⟨p, some c, m, sn, u, ns⟩ => fun h => Option.noConfusion h
  | ⟨none, none, m, sn, u, ns⟩ => fun h => WpError.noConfusion (Option.some.inj h)
  | ⟨some a, none, m, sn, u, ns⟩ => by
      unfold resolveChar
      dsimp only
      by_cases hok : t.charOk a u
      · rw [if_pos hok]
        exact fun h => Option.noConfusion h
      · rw [if_neg hok]
        exact fun h => WpError.noConfusion (Option.some.inj h)

theorem connectPhase_MacAddr (t : Transport) :
    ∀ s, (connectPhase t s).1.MacAddr = s.MacAddr
  | ⟨p, c, none, sn, u, ns⟩ => rfl
  | ⟨some b, c, some m, sn, u, ns⟩ => resolveChar_MacAddr t _
  | ⟨none, c, some m, sn, u, ns⟩ => by
      unfold connectPhase
      dsimp only
      by_cases hok : t.connectOk m
      · rw [if_pos hok]
        exact resolveChar_MacAddr t _
      · rw [if_neg hok]

theorem connectPhase_err (t : Transport) :
    ∀ s, (connectPhase t s).2 ≠ some WpError.deviceNotFound
  | ⟨p, c, none, sn, u, ns⟩ => fun h => Option.noConfusion h
  | ⟨some b, c, some m, sn, u, ns⟩ => resolveChar_err t _
  | ⟨none, c, some m, sn, u, ns⟩ => by
      unfold connectPhase
      dsimp only
      by_cases hok : t.connectOk m
      · rw [if_pos hok]
        exact resolveChar_err t _
      · rw [if_neg hok]
        exact fun h => WpError.noConfusion (Option.some.inj h)

theorem connect_discover_some (t : Transport) (s : WavePlusState) (a : String)
    (hmac : s.MacAddr = none) (hd : discover t.scan s.SN = .ok (some a)) :
    WavePlus.connect t s = connectPhase t { s with MacAddr := some a } := by
  unfold WavePlus.connect
  rw [hmac, hd]

theorem connect_discover_none (t : Transport) (s : WavePlusState)
    (hmac : s.MacAddr = none) (hd : discover t.scan s.SN = .ok none) :
    WavePlus.connect t s = (s, some .deviceNotFound) := by
  unfold WavePlus.connect
  rw [hmac, hd]

/-- Claim C6: with no device identity resolved yet, `connect` performs at
most 50 scan bursts — its discovery outcome depends only on bursts 0 to 49 —
applying `parseSerialNumber` to the discovered advertisements; when discovery
succeeds, some burst below 50 contains a device whose parsed serial equals
the target, `connect` caches that device's address and proceeds (it does not
fail with DeviceNotFound); when all 50 bursts complete without a match,
`connect` fails with DeviceNotFound, which is issued via `sys.exit(1)` and so
is fatal for the whole process. -/
theorem claim_C6 (t : Transport) (s : WavePlusState) (hmac : s.MacAddr = none) :
    (∀ scan2 : Nat → List Device, (∀ i, i < 50 → scan2 i = t.scan i) →
        discover scan2 s.SN = discover t.scan s.SN) ∧
    (∀ a, discover t.scan s.SN = .ok (some a) →
        (∃ i, i < 50 ∧ ∃ d ∈ t.scan i, d.addr = a ∧
            parseSerialNumber d.manuData = .ok (.serial s.SN)) ∧
        (WavePlus.connect t s).1.MacAddr = some a ∧
        (WavePlus.connect t s).2 ≠ some .deviceNotFound) ∧
    ((∀ i, i < 50 → burstFind s.SN (t.scan i) = .ok none) →
        (WavePlus.connect t s).2 = some .deviceNotFound ∧
        WpError.isFatal .deviceNotFound = true) := by
  refine ⟨?_, ?_, ?_⟩
  · intro scan2 hagree
    exact discoverFrom_congr t.scan scan2 s.SN 50 0 (fun j h1 h2 => hagree j (by omega))
  · intro a hd
    obtain ⟨j, h0, hj, hb⟩ := discoverFrom_some t.scan s.SN 50 0 a hd
    obtain ⟨d, hd2, ha, hp⟩ := burstFind_some hb
    refine ⟨⟨j, by omega, d, hd2, ha, hp⟩, ?_, ?_⟩
    · rw [connect_discover_some t s a hmac hd, connectPhase_MacAddr]
    · rw [connect_discover_some t s a hmac hd]
      exact connectPhase_err t _
  · intro hall
    have hd : discover t.scan s.SN = .ok none :=
      discoverFrom_none t.scan s.SN 50 0 (fun j h1 h2 => hall j (by omega))
    rw [connect_discover_none t s hmac hd]
    exact ⟨rfl, rfl⟩

theorem claim_C6_witness :
    (WavePlus.connect cfTransport (WavePlus.mkState 1 false)).2 = some .deviceNotFound ∧
    WpError.isFatal .deviceNotFound = true :=
  (claim_C6 cfTransport (WavePlus.mkState 1 false) rfl).2.2 (fun _ _ => rfl)

theorem setLoop_length (rawData : RawData) :
    ∀ (n : Nat) (l : List (Option SensorValue)), (setLoop rawData n l).length = l.length := by
  intro n
  induction n with
  | zero => intro l; rfl
  | succ k ih =>
      intro l
      unfold setLoop
      rw [List.range_succ, List.foldl_append]
      show ((setLoop rawData k l).set k (processor rawData k)).length = l.length
      rw [List.length_set]
      exact ih l

theorem setLoop_getElem (rawData : RawData) :
    ∀ (n : Nat) (l : List (Option SensorValue)), n ≤ l.length →
      ∀ i, i < n → (setLoop rawData n l)[i]? = some (processor rawData i) := by
  intro n
  induction n with
  | zero => intro l _ i hi; omega
  | succ k ih =>
      intro l hn i hi
      unfold setLoop
      rw [List.range_succ, List.foldl_append]
      show (((setLoop rawData k l).set k (processor rawData k)))[i]? = _
      by_cases hik : i = k
      · subst hik
        rw [List.getElem?_set_self (by rw [setLoop_length]; omega)]
      · have hlt : i < k := by omega
        rw [List.getElem?_set_ne (fun h => hik h.symm)]
        exact ih l (by omega) i hlt

theorem processor_isSome (rawData : RawData) (i : Nat) (hi : i < 7) :
    ∃ v, processor rawData i = some v := by
  interval_cases i <;> exact ⟨_, rfl⟩

theorem resolveChar_numSensors (t : Transport) :
    ∀ s, (resolveChar t s).1.numSensors = s.numSensors
  | ⟨p, some c, m, sn, u, ns⟩ => rfl
  | ⟨none, none, m, sn, u, ns⟩ => rfl
  | ⟨some a, none, m, sn, u, ns⟩ => by
      unfold resolveChar
      dsimp only
      by_cases hok : t.charOk a u
      · rw [if_pos hok]
      · rw [if_neg hok]

theorem connectPhase_numSensors (t : Transport) :
    ∀ s, (connectPhase t s).1.numSensors = s.numSensors
  | ⟨p, c, none, sn, u, ns⟩ => rfl
  | ⟨some b, c, some m, sn, u, ns⟩ => resolveChar_numSensors t _
  | ⟨none, c, some m, sn, u, ns⟩ => by
      unfold connectPhase
      dsimp only
      by_cases hok : t.connectOk m
      · rw [if_pos hok]
        exact resolveChar_numSensors t _
      · rw [if_neg hok]

theorem connect_numSensors (t : Transport) (s : WavePlusState) :
    (WavePlus.connect t s).1.numSensors = s.numSensors := by
  unfold WavePlus.connect
  rcases hm : s.MacAddr with _ | m
  · rcases hd : discover t.scan s.SN with e | oa
    · rfl
    · rcases oa with _ | a
      · rfl
      · exact connectPhase_numSensors t _
  · exact connectPhase_numSensors t _

theorem disconnect_numSensors : ∀ s, (WavePlus.disconnect s).numSensors = s.numSensors
  | ⟨none, _, _, _, _, _⟩ => rfl
  | ⟨some _, _, _, _, _, _⟩ => rfl

theorem read_ok (t : Transport) (s : WavePlusState) (sens : Sensors)
    (h7 : s.numSensors ≤ 7) (hread : WavePlus.read t s = .ok sens) :
    sens.numberOfSensors = s.numSensors ∧
    sens.sensor_data.length = s.numSensors ∧
    (∀ i, i < s.numSensors → ∃ v, sens.sensor_data[i]? = some (some v)) ∧
    sens.sensor_units = unitTable.take s.numSensors := by
  unfold WavePlus.read at hread
  rcases hc : s.curr_val_char with _ | c <;> rw [hc] at hread
  · cases hread
  · rcases hu : unpackFrame t.readBytes with _ | rd <;> rw [hu] at hread
    · cases hread
    · dsimp only at hread
      unfold Sensors.set at hread
      by_cases hv : rd.rd0 = 1
      · rw [if_pos hv] at hread
        dsimp only at hread
        obtain rfl : _ = sens := by cases hread; rfl
        refine ⟨rfl, ?_, ?_, rfl⟩
        · show (setLoop rd (Sensors.init s.numSensors).numberOfSensors
              (Sensors.init s.numSensors).sensor_data).length = s.numSensors
          rw [setLoop_length]
          simp [Sensors.init]
        · intro i hi
          obtain ⟨v, hv2⟩ := processor_isSome rd i (by omega)
          refine ⟨v, ?_⟩
          show (setLoop rd (Sensors.init s.numSensors).numberOfSensors
              (Sensors.init s.numSensors).sensor_data)[i]? = _
          rw [setLoop_getElem rd _ _ (by simp [Sensors.init]) i (by simpa [Sensors.init] using hi)]
          rw [hv2]
      · rw [if_neg hv] at hread
        cases hread

theorem read_numSensors (t : Transport) (s : WavePlusState) (sens : Sensors)
    (hread : WavePlus.read t s = .ok sens) : sens.numberOfSensors = s.numSensors := by
  unfold WavePlus.read at hread
  rcases hc : s.curr_val_char with _ | c <;> rw [hc] at hread
  · cases hread
  · rcases hu : unpackFrame t.readBytes with _ | rd <;> rw [hu] at hread
    · cases hread
    · dsimp only at hread
      unfold Sensors.set at hread
      by_cases hv : rd.rd0 = 1
      · rw [if_pos hv] at hread
        dsimp only at hread
        obtain rfl : _ = sens := by cases hread; rfl
        rfl
      · rw [if_neg hv] at hread
        cases hread

theorem pollCycle_numSensors (t : Transport) (s : WavePlusState) :
    (pollCycle t s).1.numSensors = s.numSensors := by
  unfold pollCycle
  rcases hc : WavePlus.connect t s with ⟨s1, _ | e⟩
  all_goals
    have h1 : s1.numSensors = s.numSensors := by
      have := connect_numSensors t s
      rw [hc] at this
      exact this
  · dsimp only
    rcases hr : WavePlus.read t s1 with e | sens
    · exact h1
    · rw [disconnect_numSensors]
      exact h1
  · exact h1

theorem pollCycle_reading (t : Transport) (s s' : WavePlusState)
    (sens : Sensors) (oerr : Option WpError)
    (h : pollCycle t s = (s', some sens, oerr)) :
    sens.numberOfSensors = s.numSensors := by
  unfold pollCycle at h
  rcases hc : WavePlus.connect t s with ⟨s1, _ | e⟩ <;> rw [hc] at h
  · dsimp only at h
    rcases hr : WavePlus.read t s1 with e | sens2 <;> rw [hr] at h
    · cases h
    · obtain rfl : sens2 = sens := by cases h; rfl
      have h1 : s1.numSensors = s.numSensors := by
        have := connect_numSensors t s
        rw [hc] at this
        exact this
      rw [read_numSensors t s1 _ hr]
      exact h1
  · cases h

theorem pollLoopAux_count (t : Transport) (N : Nat) :
    ∀ (fuel : Nat) (s : WavePlusState) (acc : List Sensors),
      s.numSensors = N → (∀ x ∈ acc, x.numberOfSensors = N) →
      ∀ x ∈ (pollLoopAux t fuel s acc).1, x.numberOfSensors = N := by
  intro fuel
  induction fuel with
  | zero =>
      intro s acc hs hacc x hx
      unfold pollLoopAux at hx
      dsimp only at hx
      rw [List.mem_reverse] at hx
      exact hacc x hx
  | succ k ih =>
      intro s acc hs hacc x hx
      unfold pollLoopAux at hx
      rcases hpc : pollCycle t s with ⟨s1, osens, oerr⟩
      rw [hpc] at hx
      have hs1 : s1.numSensors = N := by
        have := pollCycle_numSensors t s
        rw [hpc] at this
        dsimp only at this
        rw [this, hs]
      rcases oerr with _ | e
      · rcases osens with _ | sens
        · exact ih s1 acc hs1 hacc x hx
        · refine ih s1 (sens :: acc) hs1 ?_ x hx
          intro y hy
          rcases List.mem_cons.1 hy with rfl | hy2
          · rw [pollCycle_reading t s s1 y none hpc, hs]
          · exact hacc y hy2
      · rcases osens with _ | sens
        all_goals
          dsimp only at hx
          rw [List.mem_reverse] at hx
          exact hacc x hx

theorem pollRun_readings (t : Transport) (fuel : Nat) (s : WavePlusState) :
    (pollRun t fuel s).1 = (pollLoopAux t fuel s []).1 := by
  unfold pollRun
  rcases h : pollLoopAux t fuel s [] with ⟨rs, s1, _ | e⟩ <;> rfl

/-- Claim C9: for a successful read at either capability (7 sensors with air
quality, 4 without), every slot of the produced `Sensors` is populated, the
slot count equals the capability's sensor count, the units are the fixed
table truncated to that count, and the sensor count is invariant across
connect, disconnect and every reading the poll loop ever produces. -/
theorem claim_C9 (b : Bool) (t : Transport) (s : WavePlusState) (sens : Sensors) (fuel : Nat)
    (hn : s.numSensors = if b then 7 else 4)
    (hread : WavePlus.read t s = .ok sens) :
    sens.numberOfSensors = s.numSensors ∧
    sens.sensor_data.length = s.numSensors ∧
    (∀ i, i < s.numSensors → ∃ v, sens.sensor_data[i]? = some (some v)) ∧
    sens.sensor_units = unitTable.take s.numSensors ∧
    (WavePlus.connect t s).1.numSensors = s.numSensors ∧
    (WavePlus.disconnect s).numSensors = s.numSensors ∧
    (∀ x ∈ (pollRun t fuel s).1, x.numberOfSensors = s.numSensors) := by
  have h7 : s.numSensors ≤ 7 := by
    rcases b with _ | _ <;> simp at hn <;> omega
  obtain ⟨h1, h2, h3, h4⟩ := read_ok t s sens h7 hread
  refine ⟨h1, h2, h3, h4, connect_numSensors t s, disconnect_numSensors s, ?_⟩
  intro x hx
  rw [pollRun_readings] at hx
  exact pollLoopAux_count t s.numSensors fuel s [] rfl (by intro y hy; cases hy) x hx

def readTransport : Transport :=
  { scan := fun _ => [], connectOk := fun _ => true, charOk := fun _ _ => true,
    readBytes := exampleFrame }

def exampleSensors : Sensors :=
  { sensor_version := some 1, numberOfSensors := 7,
    sensor_data := [some (.flt 0), some (.int 100), some (.int 0),
                    some (.flt 0), some (.flt 1), some (.flt 400), some (.flt 1000)],
    sensor_units := unitTable }

theorem read_example :
    WavePlus.read readTransport connectedState = .ok exampleSensors := by
  simp [WavePlus.read, readTransport, connectedState, exampleSensors, exampleFrame,
        unpackFrame, leWord, Sensors.init, Sensors.set, setLoop, List.range_succ,
        processor, conv2radon, unitTable]

theorem claim_C9_witness :
    exampleSensors.numberOfSensors = connectedState.numSensors ∧
    exampleSensors.sensor_data.length = connectedState.numSensors ∧
    (∀ i, i < connectedState.numSensors → ∃ v, exampleSensors.sensor_data[i]? = some (some v)) ∧
    exampleSensors.sensor_units = unitTable.take connectedState.numSensors ∧
    (WavePlus.connect readTransport connectedState).1.numSensors = connectedState.numSensors ∧
    (WavePlus.disconnect connectedState).numSensors = connectedState.numSensors ∧
    (∀ x ∈ (pollRun readTransport 1 connectedState).1,
        x.numberOfSensors = connectedState.numSensors) :=
  claim_C9 true readTransport connectedState exampleSensors 1 rfl read_example

end WavePlusReader
